import Mathlib

/-!
Shallow embedding of the ipgen packaging pipeline, `src/ipgen/ipgen.py`
(class `SystemBuilder`), and proofs about its build orchestrator, its
interface classification and its package assemblers.

External collaborators are modelled as data or as function parameters:
the jinja2 template engine (`TmplEngine`), the contents of the fixed
template files (`tmplFile`), the component-xml generator
(`ComponentGenFn`), the pyverilog expression code generator (modelled by
`WExpr.visit` / `wireVisit` / `ioportVisit` on a small expression type)
and the RTL converter (its outputs are an `AnalyzerResult`).  Everything
the Python file itself computes is translated directly from the source.
-/

namespace Ipgen

/-! ## String primitives

Python string operations used by the source, modelled on `List Char` so
that every definition evaluates by kernel reduction. -/

/-- Helper for `hasSubstr`: does `pat` occur in the character list? -/
def hasSubstrAux (pat : List Char) : List Char → Bool
  | [] => pat.isEmpty
  | c :: rest => List.isPrefixOf pat (c :: rest) || hasSubstrAux pat rest

/-- Models the truthiness of Python `s.count(pat)` as the source uses it
(`if r.count('localparam'):` etc.): whether `pat` occurs in `s`. -/
def hasSubstr (s pat : String) : Bool := hasSubstrAux pat.data s.data

/-- Models Python `s.replace(a, b)` for single-character `a` and `b`
(the source only uses `r.replace(';', ',')`). -/
def replaceChar (s : String) (a b : Char) : String :=
  String.mk (s.data.map (fun c => if c = a then b else c))

/-- Models Python `s.endswith(t)` (used for the `.bin` memory-image
suffix test). -/
def strEndsWith (s t : String) : Bool := List.isSuffixOf t.data s.data

/-- Python `log2(v) = int(math.ceil(math.log(v, 2)))` (line 29), with
`math.log` idealized as the exact real logarithm: the ceiling of the
base-2 logarithm, which on naturals is `Nat.clog 2`.  The program's
double-precision `math.log(v, 2)` is NOT exact on every power of two: at
`v = 2^k` for `k ∈ {29, 31, 39, 47, 51, 55, 58, 59, 62}` it returns one
ulp above `k`, so the program yields `k + 1` where this idealization
yields `k` (see `mathLogTwoPow29` and `log2_float_rounding_bug`).  The
pipeline only ever calls `log2` on the fixed burst length 256, where the
double computation is exact and program and model agree. -/
def log2 (v : Nat) : Nat := Nat.clog 2 v

/-- The final conversion of line 30, `int(math.ceil(x))`, applied to the
value that the double-precision `math.log(v, 2)` returned; the double is
carried exactly, as a rational. -/
def intCeil (x : ℚ) : ℤ := Int.ceil x

/-- The exact IEEE-754 double that `math.log(2**29, 2)` returns
(`0x1.d000000000001p+4`, printed `29.000000000000004`): one ulp above
29, i.e. `29 + 2⁻⁴⁸`. -/
def mathLogTwoPow29 : ℚ := 29 + 1 / 2 ^ 48

/-! ## Expression and port model (pyverilog nodes consumed by the source) -/

/-- Model of a pyverilog expression node as it appears in port width
expressions (`pv.width.msb`, `pv.width.lsb`). -/
inductive WExpr where
  | ident (s : String)
  | intConst (n : Nat)
  | plus (a b : WExpr)
  | minus (a b : WExpr)
deriving DecidableEq

/-- Model of the external `ASTCodeGenerator.visit` on an expression. -/
def WExpr.visit : WExpr → String
  | .ident s => s
  | .intConst n => toString n
  | .plus a b => "(" ++ a.visit ++ "+" ++ b.visit ++ ")"
  | .minus a b => "(" ++ a.visit ++ "-" ++ b.visit ++ ")"

/-- Model of `pyverilog.utils.identifiervisitor.getIdentifiers`. -/
def WExpr.identifiers : WExpr → List String
  | .ident s => [s]
  | .intConst _ => []
  | .plus a b => a.identifiers ++ b.identifiers
  | .minus a b => a.identifiers ++ b.identifiers

/-- Association-list lookup (model of a Python dict built by insertion). -/
def lookupAssoc (d : List (String × String)) (k : String) : Option String :=
  match d with
  | [] => none
  | (a, b) :: rest => if a = k then some b else lookupAssoc rest k

/-- Model of `pyverilog.utils.identifierreplace.replaceIdentifiers`:
every identifier that the dictionary maps is replaced by the mapped text
(rendered verbatim by `visit`). -/
def WExpr.replaceIdentifiers (d : List (String × String)) : WExpr → WExpr
  | .ident s =>
      match lookupAssoc d s with
      | some t => .ident t
      | none => .ident s
  | .intConst n => .intConst n
  | .plus a b => .plus (a.replaceIdentifiers d) (b.replaceIdentifiers d)
  | .minus a b => .minus (a.replaceIdentifiers d) (b.replaceIdentifiers d)

/-- A width node `pv.width` with its msb and lsb expressions. -/
structure WidthNode where
  msb : WExpr
  lsb : WExpr
deriving DecidableEq

/-- Port direction: the structural role of a `vast.Input` / `vast.Output`
/ `vast.Inout` node (the `isinstance` tests of the source). -/
inductive PDir where
  | input
  | output
  | inout
deriving DecidableEq

/-- A top-level I/O port node `pv` as the analyzer delivers it. -/
structure PortRef where
  name : String
  width : Option WidthNode
  signed : Bool
  dir : PDir
deriving DecidableEq

/-- A top-level parameter as the pipeline sees it: `rendered` is
`asttocode.visit(pv)` (the full declaration text) and `valueRendered` is
`asttocode.visit(pv.value)`; both come from the external code generator
and are carried as data. -/
structure ParamDecl where
  name : String
  rendered : String
  valueRendered : String
deriving DecidableEq

/-- A bus resource definition (master or slave) from
`converter.getResourceDefinitions()`. -/
structure BusResource where
  name : String
  datawidth : Nat
  lite : Bool
deriving DecidableEq

/-- Model of `ipgen.utils.componentgen.AxiDefinition(name, datawidth,
master, lite)`. -/
structure AxiDefinition where
  name : String
  datawidth : Nat
  master : Bool
  lite : Bool
deriving DecidableEq

/-- The outputs of the external RtlConverter / code generator that
`SystemBuilder.build` consumes: resource definitions, top parameters,
top I/O ports (each `(key, pv, pwidth)` with its resolved numeric width)
and the re-rendered user logic code. -/
structure AnalyzerResult where
  masterlist : List BusResource
  slavelist : List BusResource
  top_parameters : List ParamDecl
  top_ioports : List (String × PortRef × Int)
  userlogic_code : String

/-- The configs dictionary.  The keys the source reads are `if_type`,
`single_clock`, `hperiod_ulogic`, `hperiod_bus`, `ext_addrwidth`,
`sim_addrwidth` and `output`.  The field `ext_burstlength` records the
externalBurstLength of the configuration surface described by the spec;
the build functions never read it — they use a local default of 256. -/
structure Configs where
  if_type : String
  single_clock : Bool
  hperiod_ulogic : Nat
  hperiod_bus : Nat
  ext_addrwidth : Nat
  sim_addrwidth : Nat
  output : String
  ext_burstlength : Nat
deriving DecidableEq

/-! ## The template renderer (`SystemBuilder.render`, lines 42-95) -/

/-- The `template_dict` handed to the template engine (lines 57-91). -/
structure TemplateDict where
  userlogic_name : String
  masterlist : List BusResource
  slavelist : List BusResource
  def_top_parameters : List String
  def_top_localparams : List String
  def_top_ioports : List String
  name_top_ioports : List String
  ext_addrwidth : Nat
  ext_burstlength : Nat
  ext_burstlen_width : Nat
  hdlname : Option String
  common_hdlname : Option String
  testname : Option String
  ipcore_version : Option String
  memimg : String
  binfile : Bool
  usertestcode : String
  simaddrwidth : Option Nat
  mpd_parameters : List (String × String × String)
  mpd_ports : List (String × String × String)
  tcl_parameters : List (String × String × String)
  tcl_ports : List (String × String × String)
  clock_hperiod_userlogic : Option Nat
  clock_hperiod_bus : Option Nat
  single_clock : Bool
  ignore_protocol_error : Bool
deriving DecidableEq

/-- The arguments of `SystemBuilder.render`; the default field values
mirror the Python keyword defaults of lines 42-54. -/
structure RenderArgs where
  template_file : String
  userlogic_name : String
  masterlist : List BusResource
  slavelist : List BusResource
  def_top_parameters : List String
  def_top_localparams : List String
  def_top_ioports : List String
  name_top_ioports : List String
  ext_addrwidth : Nat := 32
  ext_burstlength : Nat := 256
  single_clock : Bool := false
  hdlname : Option String := none
  common_hdlname : Option String := none
  testname : Option String := none
  ipcore_version : Option String := none
  memimg : Option String := none
  binfile : Bool := false
  usertestcode : Option String := none
  simaddrwidth : Option Nat := none
  mpd_parameters : Option (List (String × String × String)) := none
  mpd_ports : Option (List (String × String × String)) := none
  tcl_parameters : Option (List (String × String × String)) := none
  tcl_ports : Option (List (String × String × String)) := none
  clock_hperiod_userlogic : Option Nat := none
  clock_hperiod_bus : Option Nat := none
  ignore_protocol_error : Bool := false

/-- The `template_dict` that `render` builds before invoking the engine:
`ext_burstlen_width = log2(ext_burstlength)` (line 56) and the
None-coalescing defaults of lines 76-84. -/
def renderDict (a : RenderArgs) : TemplateDict :=
  { userlogic_name := a.userlogic_name
    masterlist := a.masterlist
    slavelist := a.slavelist
    def_top_parameters := a.def_top_parameters
    def_top_localparams := a.def_top_localparams
    def_top_ioports := a.def_top_ioports
    name_top_ioports := a.name_top_ioports
    ext_addrwidth := a.ext_addrwidth
    ext_burstlength := a.ext_burstlength
    ext_burstlen_width := log2 a.ext_burstlength
    hdlname := a.hdlname
    common_hdlname := a.common_hdlname
    testname := a.testname
    ipcore_version := a.ipcore_version
    memimg := match a.memimg with | some m => m | none => "None"
    binfile := a.binfile
    usertestcode := match a.usertestcode with | some u => u | none => ""
    simaddrwidth := a.simaddrwidth
    mpd_parameters := a.mpd_parameters.getD []
    mpd_ports := a.mpd_ports.getD []
    tcl_parameters := a.tcl_parameters.getD []
    tcl_ports := a.tcl_ports.getD []
    clock_hperiod_userlogic := a.clock_hperiod_userlogic
    clock_hperiod_bus := a.clock_hperiod_bus
    single_clock := a.single_clock
    ignore_protocol_error := a.ignore_protocol_error }

/-- The external jinja2 engine: template name and context to text. -/
abbrev TmplEngine : Type := String → TemplateDict → String

/-- The external `ComponentGen.generate` of
`ipgen.utils.componentgen` (component.xml contents). -/
abbrev ComponentGenFn : Type :=
  String → List AxiDefinition → Nat → Nat →
  List (String × String × Option Int × Option String) →
  List (String × String × String) → String

/-- `SystemBuilder.render` (lines 42-95): build the dict, apply the
engine. -/
def render (tmpl : TmplEngine) (a : RenderArgs) : String :=
  tmpl a.template_file (renderDict a)

/-! ## Filesystem model

The assemblers only ever create a directory when it does not already
exist (`if not os.path.exists(d): os.mkdir(d)`) and open files in mode
`w` (truncate / overwrite).  `shutil.copyfile` is a write of the source
file's content. -/

/-- One filesystem side effect of a package assembler. -/
inductive FsAction where
  | mkdirIfAbsent (d : String)
  | fwrite (p : String) (c : String)
deriving DecidableEq

/-- The path an action touches. -/
def FsAction.path : FsAction → String
  | .mkdirIfAbsent d => d
  | .fwrite p _ => p

/-- Filesystem state: directories present and file contents. -/
structure FS where
  dirs : List String
  files : List (String × String)
deriving DecidableEq

/-- Overwrite (or create) the file `p` with content `c`. -/
def setFile (files : List (String × String)) (p c : String) :
    List (String × String) :=
  match files with
  | [] => [(p, c)]
  | (q, d) :: rest => if q = p then (p, c) :: rest else (q, d) :: setFile rest p c

/-- Content of file `p`, if present. -/
def getFile (files : List (String × String)) (p : String) : Option String :=
  match files with
  | [] => none
  | (q, c) :: rest => if q = p then some c else getFile rest p

/-- Apply one action to the state. -/
def applyAction (fs : FS) : FsAction → FS
  | .mkdirIfAbsent d => if d ∈ fs.dirs then fs else { fs with dirs := fs.dirs ++ [d] }
  | .fwrite p c => { fs with files := setFile fs.files p c }

/-- Apply a list of actions left to right. -/
def applyActions (fs : FS) (acts : List FsAction) : FS :=
  acts.foldl applyAction fs

/-- The content of the chronologically last write to `p` in `acts`. -/
def lastWrite : List FsAction → String → Option String
  | [], _ => none
  | a :: rest, p =>
    match lastWrite rest p with
    | some c => some c
    | none =>
      match a with
      | .fwrite q c => if q = p then some c else none
      | .mkdirIfAbsent _ => none

/-! ## Interface classification

The per-family loops of `build_package_axi` (lines 241-287),
`build_package_avalon` (lines 515-537) and `build` (lines 127-148). -/

/-- Datatype of a configurable parameter in the AXI profile (line 249):
`string` when the rendered declaration contains a quote, otherwise
`integer`. -/
def axiParamDatatype (r : String) : String :=
  if hasSubstr r "\"" then "string" else "integer"

/-- Datatype of a configurable parameter in the Avalon profile (lines
523-525): `STRING` when the rendered declaration contains a quote, else
`INTEGER` when it contains `integer`, else `STD_LOGIC_VECTOR`. -/
def avalonParamDatatype (r : String) : String :=
  if hasSubstr r "\"" then "STRING"
  else if hasSubstr r "integer" then "INTEGER"
  else "STD_LOGIC_VECTOR"

/-- Direction tag of an mpd port in the AXI profile (lines 257-259). -/
def axiMpdDir (d : PDir) : String :=
  match d with
  | .input => "I"
  | .output => "O"
  | .inout => "IO"

/-- Direction tag of an ext (IP-XACT) port in the AXI profile (lines
266-268). -/
def axiExtDir (d : PDir) : String :=
  match d with
  | .input => "in"
  | .output => "out"
  | .inout => "inout"

/-- Direction tag of a tcl port in the Avalon profile (lines 533-535). -/
def avalonTclDir (d : PDir) : String :=
  match d with
  | .input => "Input"
  | .output => "Output"
  | .inout => "Inout"

/-- Model of the code generator on a width node: `[msb:lsb]`. -/
def widthVisit (w : WidthNode) : String :=
  "[" ++ w.msb.visit ++ ":" ++ w.lsb.visit ++ "]"

/-- Model of the code generator on a `vast.Wire(name, width, signed)`
declaration node. -/
def wireVisit (name : String) (width : Option WidthNode) (signed : Bool) :
    String :=
  "wire " ++ (if signed then "signed " else "")
    ++ (match width with | some w => widthVisit w ++ " " | none => "")
    ++ name ++ ";"

/-- Direction keyword of a port declaration. -/
def pdirKeyword (d : PDir) : String :=
  match d with
  | .input => "input"
  | .output => "output"
  | .inout => "inout"

/-- Model of the code generator on an `vast.Ioport(pv, Wire pv.name
pv.width pv.signed)` node built by `build` (lines 143, 146). -/
def ioportVisit (pv : PortRef) : String :=
  pdirKeyword pv.dir ++ " wire "
    ++ (match pv.width with | some w => widthVisit w ++ " " | none => "")
    ++ pv.name ++ ";"

/-- Results of the first parameter loop of `build_package_axi`
(lines 241-250). -/
structure AxiParamLists where
  def_top_parameters : List String
  def_top_localparams : List String
  mpd_parameters : List (String × String × String)
deriving DecidableEq

/-- The first parameter loop of `build_package_axi` (lines 241-250):
every rendered declaration goes to `def_top_parameters`; localparams go
(in addition) to `def_top_localparams`; the others produce an
mpd-parameter row with the AXI datatype. -/
def axiParamsPass (ps : List ParamDecl) : AxiParamLists :=
  match ps with
  | [] => { def_top_parameters := [], def_top_localparams := [], mpd_parameters := [] }
  | pv :: rest =>
    let tail := axiParamsPass rest
    let r := pv.rendered
    if hasSubstr r "localparam" then
      { def_top_parameters := r :: tail.def_top_parameters
        def_top_localparams := r :: tail.def_top_localparams
        mpd_parameters := tail.mpd_parameters }
    else
      { def_top_parameters := r :: tail.def_top_parameters
        def_top_localparams := tail.def_top_localparams
        mpd_parameters :=
          (pv.name, pv.valueRendered, axiParamDatatype r) :: tail.mpd_parameters }

/-- Results of the second parameter loop of `build_package_axi`
(lines 279-287): it appends localparams to `def_top_localparams` a
second time and builds the `ext_params` rows. -/
structure AxiExtParamLists where
  extra_localparams : List String
  ext_params : List (String × String × String)
deriving DecidableEq

/-- The second parameter loop of `build_package_axi` (lines 279-287). -/
def axiExtParamsPass (ps : List ParamDecl) : AxiExtParamLists :=
  match ps with
  | [] => { extra_localparams := [], ext_params := [] }
  | pv :: rest =>
    let tail := axiExtParamsPass rest
    let r := pv.rendered
    if hasSubstr r "localparam" then
      { extra_localparams := r :: tail.extra_localparams
        ext_params := tail.ext_params }
    else
      { extra_localparams := tail.extra_localparams
        ext_params :=
          (pv.name, pv.valueRendered, axiParamDatatype r) :: tail.ext_params }

/-- Results of the mpd port loop of `build_package_axi`
(lines 252-261). -/
structure AxiPortLists where
  name_top_ioports : List String
  def_top_ioports : List String
  mpd_ports : List (String × String × String)
deriving DecidableEq

/-- The mpd port loop of `build_package_axi` (lines 252-261): the HDL
wire declaration keeps the port's width expression untouched, the mpd
row carries the rendered width text (empty for a scalar port). -/
def axiPortsPass (ports : List (String × PortRef × Int)) : AxiPortLists :=
  match ports with
  | [] => { name_top_ioports := [], def_top_ioports := [], mpd_ports := [] }
  | (pk, pv, _pwidth) :: rest =>
    let tail := axiPortsPass rest
    { name_top_ioports := pk :: tail.name_top_ioports
      def_top_ioports := wireVisit pv.name pv.width pv.signed :: tail.def_top_ioports
      mpd_ports :=
        (pv.name, axiMpdDir pv.dir,
          match pv.width with | none => "" | some w => widthVisit w)
          :: tail.mpd_ports }

/-- The parameter-lookup accessor substituted for identifier `i` in the
IP-XACT msb expression (line 274). -/
def spiritDecode (i : String) : String :=
  "(spirit:decode(id('MODELPARAM_VALUE." ++ i ++ "')))"

/-- The substitution dictionary `_d` of lines 272-274. -/
def spiritDict (ids : List String) : List (String × String) :=
  ids.map (fun i => (i, spiritDecode i))

/-- One `ext_ports` entry of `build_package_axi` (lines 263-277):
`(name, direction, vector-msb-index, substituted msb text)`; the vector
field is `none` for a scalar port, otherwise `pwidth - 1`. -/
def axiExtPortEntry (pv : PortRef) (pwidth : Int) :
    String × String × Option Int × Option String :=
  match pv.width with
  | none => (pv.name, axiExtDir pv.dir, none, none)
  | some w =>
      (pv.name, axiExtDir pv.dir, some (pwidth - 1),
        some ((w.msb.replaceIdentifiers (spiritDict w.msb.identifiers)).visit))

/-- The ext port loop of `build_package_axi` (lines 263-277). -/
def axiExtPorts (ports : List (String × PortRef × Int)) :
    List (String × String × Option Int × Option String) :=
  ports.map (fun x => axiExtPortEntry x.2.1 x.2.2)

/-- Results of the parameter loop of `build_package_avalon`
(lines 515-526). -/
structure AvalonParamLists where
  def_top_parameters : List String
  def_top_localparams : List String
  tcl_parameters : List (String × String × String)
deriving DecidableEq

/-- The parameter loop of `build_package_avalon` (lines 515-526). -/
def avalonParamsPass (ps : List ParamDecl) : AvalonParamLists :=
  match ps with
  | [] => { def_top_parameters := [], def_top_localparams := [], tcl_parameters := [] }
  | pv :: rest =>
    let tail := avalonParamsPass rest
    let r := pv.rendered
    if hasSubstr r "localparam" then
      { def_top_parameters := r :: tail.def_top_parameters
        def_top_localparams := r :: tail.def_top_localparams
        tcl_parameters := tail.tcl_parameters }
    else
      { def_top_parameters := r :: tail.def_top_parameters
        def_top_localparams := tail.def_top_localparams
        tcl_parameters :=
          (pv.name, pv.valueRendered, avalonParamDatatype r) :: tail.tcl_parameters }

/-- Results of the port loop of `build_package_avalon`
(lines 528-537). -/
structure AvalonPortLists where
  name_top_ioports : List String
  def_top_ioports : List String
  tcl_ports : List (String × String × String)
deriving DecidableEq

/-- The port loop of `build_package_avalon` (lines 528-537): the tcl row
carries `str(pwidth)` — the resolved width itself, also for scalar
ports. -/
def avalonPortsPass (ports : List (String × PortRef × Int)) : AvalonPortLists :=
  match ports with
  | [] => { name_top_ioports := [], def_top_ioports := [], tcl_ports := [] }
  | (pk, pv, pwidth) :: rest =>
    let tail := avalonPortsPass rest
    { name_top_ioports := pk :: tail.name_top_ioports
      def_top_ioports := wireVisit pv.name pv.width pv.signed :: tail.def_top_ioports
      tcl_ports :=
        (pv.name, avalonTclDir pv.dir, toString pwidth) :: tail.tcl_ports }

/-! ## The loops of `build` itself (lines 127-153) -/

/-- Results of the parameter loop of `build` (lines 132-137). -/
structure BuildParamLists where
  def_top_parameters : List String
  def_top_localparams : List String
deriving DecidableEq

/-- The parameter loop of `build` (lines 132-137): localparams are
routed to the localparam bucket, the others have their `;` replaced by
`,`. -/
def buildParamsPass (ps : List ParamDecl) : BuildParamLists :=
  match ps with
  | [] => { def_top_parameters := [], def_top_localparams := [] }
  | pv :: rest =>
    let tail := buildParamsPass rest
    let r := pv.rendered
    if hasSubstr r "localparam" then
      { def_top_parameters := tail.def_top_parameters
        def_top_localparams := r :: tail.def_top_localparams }
    else
      { def_top_parameters := replaceChar r ';' ',' :: tail.def_top_parameters
        def_top_localparams := tail.def_top_localparams }

/-- The avalon renaming of lines 141-142: the wrapper declares the port
under the name `coe_<name>`. -/
def coeRename (pv : PortRef) : PortRef := { pv with name := "coe_" ++ pv.name }

/-- The port nodes declared in the wrapper's port list: the `new_pv` of
lines 140-147 (renamed for the avalon family, unchanged otherwise). -/
def wrapperPortDecls (if_type : String) (ports : List (String × PortRef × Int)) :
    List PortRef :=
  ports.map (fun x => if if_type = "avalon" then coeRename x.2.1 else x.2.1)

/-- Results of the I/O port loop of `build` (lines 139-148). -/
structure BuildPortLists where
  def_top_ioports : List String
  name_top_ioports : List String
deriving DecidableEq

/-- The I/O port loop of `build` (lines 139-148): the declaration list
renders each (possibly renamed) port node; the name cross-reference list
keeps the original mapping keys. -/
def buildPortsPass (if_type : String) (ports : List (String × PortRef × Int)) :
    BuildPortLists :=
  { def_top_ioports := (wrapperPortDecls if_type ports).map ioportVisit
    name_top_ioports := ports.map (fun x => x.1) }

/-- Node template selection (lines 150-153). -/
def nodeTemplateFile (if_type : String) : String :=
  if if_type = "axi" then "node_axi.txt"
  else if if_type = "avalon" then "node_avalon.txt"
  else "node_general.txt"

/-- The shared protocol-interface sources appended as `common_code`
(lines 168-183): four fixed template files for axi and for avalon,
nothing for any other family. -/
def commonCodeList (tmplFile : String → String) (if_type : String) : List String :=
  (if if_type = "axi" then
    [tmplFile "axi_master_interface.v", tmplFile "axi_lite_master_interface.v",
     tmplFile "axi_slave_interface.v", tmplFile "axi_lite_slave_interface.v"]
   else [])
  ++ (if if_type = "avalon" then
    [tmplFile "avalon_master_interface.v", tmplFile "avalon_lite_master_interface.v",
     tmplFile "avalon_slave_interface.v", tmplFile "avalon_lite_slave_interface.v"]
   else [])

/-! ## Package assemblers

`build_package_general` (lines 213-217), `build_package_axi` (lines
220-494) and `build_package_avalon` (lines 497-626), each as the list of
filesystem actions it performs, in order.  The contents of files the
source reads are supplied as data: `memimgContent` is the content of the
memory image (copied by `shutil.copyfile` / `shutil.copy`) and
`usertestContent` the content of the user test code file. -/

/-- The inputs a package assembler receives from `build`, bundled. -/
structure PkgInputs where
  configs : Configs
  userlogic_topmodule : String
  synthesized_code : String
  common_code : String
  masterlist : List BusResource
  slavelist : List BusResource
  top_parameters : List ParamDecl
  top_ioports : List (String × PortRef × Int)
  memimg : Option String
  memimgContent : String
  usertest : Option String
  usertestContent : String
  ignore_protocol_error : Bool

/-- `build_package_general` (lines 213-217): one file at
`configs['output']` holding `synthesized_code + common_code`. -/
def build_package_general (configs : Configs)
    (synthesized_code common_code : String) : List FsAction :=
  [.fwrite configs.output (synthesized_code ++ common_code)]

/-- The AXI package directory (line 294). -/
def axiDirname (userlogic_topmodule : String) : String :=
  "ipgen_" ++ userlogic_topmodule ++ "_v1_00_a" ++ "/"

/-- The render arguments of the mpd file (lines 352-360). -/
def axiMpdArgs (i : PkgInputs) : RenderArgs :=
  let pl := axiParamsPass i.top_parameters
  let extPl := axiExtParamsPass i.top_parameters
  let ports := axiPortsPass i.top_ioports
  { template_file := "mpd.txt"
    userlogic_name := i.userlogic_topmodule
    masterlist := i.masterlist
    slavelist := i.slavelist
    def_top_parameters := pl.def_top_parameters
    def_top_localparams := pl.def_top_localparams ++ extPl.extra_localparams
    def_top_ioports := ports.def_top_ioports
    name_top_ioports := ports.name_top_ioports
    ext_addrwidth := i.configs.ext_addrwidth
    ext_burstlength := 256
    single_clock := i.configs.single_clock
    hdlname := some ("ipgen_" ++ i.userlogic_topmodule ++ ".v")
    ipcore_version := some "_v1_00_a"
    mpd_ports := some ports.mpd_ports
    mpd_parameters := some pl.mpd_parameters }

/-- The render arguments of the pao file (lines 380-388): identical
keyword set to the mpd render. -/
def axiPaoArgs (i : PkgInputs) : RenderArgs :=
  { axiMpdArgs i with template_file := "pao.txt" }

/-- The render arguments of the xgui file (lines 437-446): identical
keyword set to the mpd render. -/
def axiXguiArgs (i : PkgInputs) : RenderArgs :=
  { axiMpdArgs i with template_file := "xgui_tcl.txt" }

/-- The render arguments of the AXI test bench (lines 462-474). -/
def axiTestArgs (i : PkgInputs) : RenderArgs :=
  let pl := axiParamsPass i.top_parameters
  let extPl := axiExtParamsPass i.top_parameters
  let ports := axiPortsPass i.top_ioports
  { template_file := "test_ipgen_axi.txt"
    userlogic_name := i.userlogic_topmodule
    masterlist := i.masterlist
    slavelist := i.slavelist
    def_top_parameters := pl.def_top_parameters
    def_top_localparams := pl.def_top_localparams ++ extPl.extra_localparams
    def_top_ioports := ports.def_top_ioports
    name_top_ioports := ports.name_top_ioports
    ext_addrwidth := i.configs.ext_addrwidth
    ext_burstlength := 256
    single_clock := i.configs.single_clock
    hdlname := some ("ipgen_" ++ i.userlogic_topmodule ++ ".v")
    memimg := match i.memimg with | some _ => some "mem.img" | none => none
    binfile := match i.memimg with | some m => strEndsWith m ".bin" | none => false
    usertestcode := match i.usertest with | some _ => some i.usertestContent | none => none
    simaddrwidth := some i.configs.sim_addrwidth
    clock_hperiod_userlogic := some i.configs.hperiod_ulogic
    clock_hperiod_bus := some i.configs.hperiod_bus
    ignore_protocol_error := i.ignore_protocol_error }

/-- The render arguments of the AXI Makefile (lines 486-491). -/
def axiMakefileArgs (i : PkgInputs) : RenderArgs :=
  let pl := axiParamsPass i.top_parameters
  let extPl := axiExtParamsPass i.top_parameters
  let ports := axiPortsPass i.top_ioports
  { template_file := "Makefile.txt"
    userlogic_name := i.userlogic_topmodule
    masterlist := i.masterlist
    slavelist := i.slavelist
    def_top_parameters := pl.def_top_parameters
    def_top_localparams := pl.def_top_localparams ++ extPl.extra_localparams
    def_top_ioports := ports.def_top_ioports
    name_top_ioports := ports.name_top_ioports
    ext_addrwidth := i.configs.ext_addrwidth
    ext_burstlength := 256
    single_clock := i.configs.single_clock
    testname := some ("test_ipgen_" ++ i.userlogic_topmodule ++ ".v") }

/-- The memory-map list of lines 401-407: one `AxiDefinition` per
master, then one per slave. -/
def axiMemorylist (masterlist slavelist : List BusResource) : List AxiDefinition :=
  masterlist.map (fun m => AxiDefinition.mk (m.name ++ "_AXI") m.datawidth true m.lite)
    ++ slavelist.map (fun s => AxiDefinition.mk (s.name ++ "_AXI") s.datawidth false s.lite)

/-- `build_package_axi` (lines 220-494) as its ordered filesystem
actions: eight directory creations (each skipped when the directory
exists), then the mpd, pao, tcl, component.xml, xdc, bd, xgui, wrapper
HDL, test bench (with the appended fifo fixture), optional memory-image
copy, and Makefile writes. -/
def build_package_axi (tmpl : TmplEngine) (tmplFile : String → String)
    (compGen : ComponentGenFn) (i : PkgInputs) : List FsAction :=
  let code := i.synthesized_code ++ i.common_code
  let dirname := axiDirname i.userlogic_topmodule
  let mpd_code := render tmpl (axiMpdArgs i)
  let pao_code := render tmpl (axiPaoArgs i)
  let tcl_code := if i.configs.single_clock then "" else tmplFile "pcore_tcl.tcl"
  let xml_code := compGen ("ipgen_" ++ i.userlogic_topmodule)
    (axiMemorylist i.masterlist i.slavelist) i.configs.ext_addrwidth 256
    (axiExtPorts i.top_ioports) (axiExtParamsPass i.top_parameters).ext_params
  let xdc_code := if i.configs.single_clock then "" else tmplFile "ipxact.xdc"
  let bd_code := tmplFile "bd.tcl"
  let xgui_code := render tmpl (axiXguiArgs i)
  let test_code := render tmpl (axiTestArgs i)
  let makefile_code := render tmpl (axiMakefileArgs i)
  [FsAction.mkdirIfAbsent dirname,
   .mkdirIfAbsent (dirname ++ "/" ++ "data"),
   .mkdirIfAbsent (dirname ++ "/" ++ "doc"),
   .mkdirIfAbsent (dirname ++ "/" ++ "bd"),
   .mkdirIfAbsent (dirname ++ "/" ++ "xgui"),
   .mkdirIfAbsent (dirname ++ "/" ++ "hdl"),
   .mkdirIfAbsent (dirname ++ "/" ++ "hdl/verilog"),
   .mkdirIfAbsent (dirname ++ "/" ++ "test"),
   .fwrite (dirname ++ "data/" ++ ("ipgen_" ++ i.userlogic_topmodule ++ "_v2_1_0" ++ ".mpd")) mpd_code,
   .fwrite (dirname ++ "data/" ++ ("ipgen_" ++ i.userlogic_topmodule ++ "_v2_1_0" ++ ".pao")) pao_code,
   .fwrite (dirname ++ "data/" ++ ("ipgen_" ++ i.userlogic_topmodule ++ "_v2_1_0" ++ ".tcl")) tcl_code,
   .fwrite (dirname ++ "component.xml") xml_code,
   .fwrite (dirname ++ "data/" ++ ("ipgen_" ++ i.userlogic_topmodule ++ ".xdc")) xdc_code,
   .fwrite (dirname ++ "bd/" ++ "bd.tcl") bd_code,
   .fwrite (dirname ++ "xgui/" ++ "xgui.tcl") xgui_code,
   .fwrite (dirname ++ "hdl/verilog/" ++ ("ipgen_" ++ i.userlogic_topmodule ++ ".v")) code,
   .fwrite (dirname ++ "test/" ++ ("test_ipgen_" ++ i.userlogic_topmodule ++ ".v"))
     (test_code ++ tmplFile "axi_master_fifo.v")]
  ++ (match i.memimg with
      | some _ => [FsAction.fwrite (dirname ++ "test/" ++ "mem.img") i.memimgContent]
      | none => [])
  ++ [FsAction.fwrite (dirname ++ "test/" ++ "Makefile") makefile_code]

/-- The render arguments of the avalon qsys tcl file (lines 566-573). -/
def avalonTclArgs (i : PkgInputs) : RenderArgs :=
  let pl := avalonParamsPass i.top_parameters
  let ports := avalonPortsPass i.top_ioports
  { template_file := "qsys_tcl.txt"
    userlogic_name := i.userlogic_topmodule
    masterlist := i.masterlist
    slavelist := i.slavelist
    def_top_parameters := pl.def_top_parameters
    def_top_localparams := pl.def_top_localparams
    def_top_ioports := ports.def_top_ioports
    name_top_ioports := ports.name_top_ioports
    ext_addrwidth := i.configs.ext_addrwidth
    ext_burstlength := 256
    single_clock := i.configs.single_clock
    hdlname := some ("ipgen_" ++ i.userlogic_topmodule ++ ".v")
    common_hdlname := some "ipgen_common.v"
    tcl_ports := some ports.tcl_ports
    tcl_parameters := some pl.tcl_parameters }

/-- The render arguments of the avalon test bench (lines 594-606). -/
def avalonTestArgs (i : PkgInputs) : RenderArgs :=
  let pl := avalonParamsPass i.top_parameters
  let ports := avalonPortsPass i.top_ioports
  { template_file := "test_ipgen_avalon.txt"
    userlogic_name := i.userlogic_topmodule
    masterlist := i.masterlist
    slavelist := i.slavelist
    def_top_parameters := pl.def_top_parameters
    def_top_localparams := pl.def_top_localparams
    def_top_ioports := ports.def_top_ioports
    name_top_ioports := ports.name_top_ioports
    ext_addrwidth := i.configs.ext_addrwidth
    ext_burstlength := 256
    single_clock := i.configs.single_clock
    hdlname := some ("ipgen_" ++ i.userlogic_topmodule ++ ".v")
    common_hdlname := some "ipgen_common.v"
    memimg := match i.memimg with | some _ => some "mem.img" | none => none
    binfile := match i.memimg with | some m => strEndsWith m ".bin" | none => false
    usertestcode := match i.usertest with | some _ => some i.usertestContent | none => none
    simaddrwidth := some i.configs.sim_addrwidth
    clock_hperiod_userlogic := some i.configs.hperiod_ulogic
    clock_hperiod_bus := some i.configs.hperiod_bus
    ignore_protocol_error := i.ignore_protocol_error }

/-- The render arguments of the avalon Makefile (lines 618-623). -/
def avalonMakefileArgs (i : PkgInputs) : RenderArgs :=
  let pl := avalonParamsPass i.top_parameters
  let ports := avalonPortsPass i.top_ioports
  { template_file := "Makefile.txt"
    userlogic_name := i.userlogic_topmodule
    masterlist := i.masterlist
    slavelist := i.slavelist
    def_top_parameters := pl.def_top_parameters
    def_top_localparams := pl.def_top_localparams
    def_top_ioports := ports.def_top_ioports
    name_top_ioports := ports.name_top_ioports
    ext_addrwidth := i.configs.ext_addrwidth
    ext_burstlength := 256
    single_clock := i.configs.single_clock
    testname := some ("test_ipgen_" ++ i.userlogic_topmodule ++ ".v") }

/-- `build_package_avalon` (lines 497-626) as its ordered filesystem
actions: four directory creations, then the qsys tcl, wrapper HDL,
common HDL, test bench (with the appended fifo fixture), optional
memory-image copy, and Makefile writes. -/
def build_package_avalon (tmpl : TmplEngine) (tmplFile : String → String)
    (i : PkgInputs) : List FsAction :=
  let dirname := axiDirname i.userlogic_topmodule
  let tcl_code := render tmpl (avalonTclArgs i)
  let test_code := render tmpl (avalonTestArgs i)
  let makefile_code := render tmpl (avalonMakefileArgs i)
  [FsAction.mkdirIfAbsent dirname,
   .mkdirIfAbsent (dirname ++ "/" ++ "hdl"),
   .mkdirIfAbsent (dirname ++ "/" ++ "hdl/verilog"),
   .mkdirIfAbsent (dirname ++ "/" ++ "test"),
   .fwrite (dirname ++ "hdl/verilog/" ++ ("ipgen_" ++ i.userlogic_topmodule ++ ".tcl")) tcl_code,
   .fwrite (dirname ++ "hdl/verilog/" ++ ("ipgen_" ++ i.userlogic_topmodule ++ ".v")) i.synthesized_code,
   .fwrite (dirname ++ "hdl/verilog/" ++ "ipgen_common.v") i.common_code,
   .fwrite (dirname ++ "test/" ++ ("test_ipgen_" ++ i.userlogic_topmodule ++ ".v"))
     (test_code ++ tmplFile "avalon_master_fifo.v")]
  ++ (match i.memimg with
      | some _ => [FsAction.fwrite (dirname ++ "test/" ++ "mem.img") i.memimgContent]
      | none => [])
  ++ [FsAction.fwrite (dirname ++ "test/" ++ "Makefile") makefile_code]

/-! ## The build orchestrator (`SystemBuilder.build`, lines 98-210) -/

/-- One step of a build run: the external structural analysis (the
RtlConverter invocation of lines 109-124) or a filesystem action. -/
inductive BuildStep where
  | analyze
  | fsAct (a : FsAction)
deriving DecidableEq

/-- The file writes of a trace, in order. -/
def fsWrites (steps : List BuildStep) : List (String × String) :=
  steps.filterMap (fun s =>
    match s with
    | .fsAct (.fwrite p c) => some (p, c)
    | _ => none)

/-- The filesystem actions of a trace, in order. -/
def fsActs (steps : List BuildStep) : List FsAction :=
  steps.filterMap (fun s => match s with | .fsAct a => some a | _ => none)

/-- The render arguments of the node (wrapper) template (lines
155-161). -/
def nodeArgs (configs : Configs) (userlogic_topmodule : String)
    (analyzer : AnalyzerResult) : RenderArgs :=
  let pl := buildParamsPass analyzer.top_parameters
  let portl := buildPortsPass configs.if_type analyzer.top_ioports
  { template_file := nodeTemplateFile configs.if_type
    userlogic_name := userlogic_topmodule
    masterlist := analyzer.masterlist
    slavelist := analyzer.slavelist
    def_top_parameters := pl.def_top_parameters
    def_top_localparams := pl.def_top_localparams
    def_top_ioports := portl.def_top_ioports
    name_top_ioports := portl.name_top_ioports
    ext_addrwidth := configs.ext_addrwidth
    ext_burstlength := 256
    single_clock := configs.single_clock }

/-- `SystemBuilder.build` (lines 98-210) as a trace: the steps performed
(the external RTL analysis, then directory and file actions) paired with
the message of the `ValueError` raised, if any.  The single-clock period
check (lines 105-106) precedes everything; the unsupported-family check
(line 210) is reached only after analysis and wrapper rendering. -/
def build (tmpl : TmplEngine) (tmplFile : String → String)
    (compGen : ComponentGenFn) (configs : Configs)
    (userlogic_topmodule : String) (analyzer : AnalyzerResult)
    (memimg : Option String) (memimgContent : String)
    (usertest : Option String) (usertestContent : String)
    (ignore_protocol_error : Bool) : List BuildStep × Option String :=
  if configs.single_clock && (configs.hperiod_ulogic != configs.hperiod_bus) then
    ([], some "All clock periods should be same in single clock mode.")
  else
    let node_code := render tmpl (nodeArgs configs userlogic_topmodule analyzer)
    let synthesized_code := node_code ++ analyzer.userlogic_code
    let common_code := String.join (commonCodeList tmplFile configs.if_type)
    let i : PkgInputs :=
      { configs := configs
        userlogic_topmodule := userlogic_topmodule
        synthesized_code := synthesized_code
        common_code := common_code
        masterlist := analyzer.masterlist
        slavelist := analyzer.slavelist
        top_parameters := analyzer.top_parameters
        top_ioports := analyzer.top_ioports
        memimg := memimg
        memimgContent := memimgContent
        usertest := usertest
        usertestContent := usertestContent
        ignore_protocol_error := ignore_protocol_error }
    if configs.if_type = "general" then
      (BuildStep.analyze ::
        (build_package_general configs synthesized_code common_code).map .fsAct, none)
    else if configs.if_type = "axi" then
      (BuildStep.analyze ::
        (build_package_axi tmpl tmplFile compGen i).map .fsAct, none)
    else if configs.if_type = "avalon" then
      (BuildStep.analyze ::
        (build_package_avalon tmpl tmplFile i).map .fsAct, none)
    else
      ([BuildStep.analyze],
        some ("Interface type '" ++ configs.if_type ++ "' is not supported."))

/-! ## Concrete fixtures used by witnesses and counterexamples -/

/-- A trivial template engine. -/
def tmplZero : TmplEngine := fun _ _ => ""

/-- Trivial template-file contents. -/
def tmplFileZero : String → String := fun _ => ""

/-- A trivial component generator. -/
def compGenZero : ComponentGenFn := fun _ _ _ _ _ _ => ""

/-- An analyzer result with no parameters, ports or resources. -/
def emptyAnalyzer : AnalyzerResult :=
  { masterlist := [], slavelist := [], top_parameters := [], top_ioports := [],
    userlogic_code := "usercode" }

/-- A single-clock config whose half periods differ. -/
def cfgMismatch : Configs :=
  { if_type := "axi", single_clock := true, hperiod_ulogic := 5, hperiod_bus := 10,
    ext_addrwidth := 32, sim_addrwidth := 24, output := "out.v", ext_burstlength := 256 }

/-- A config asking for an unsupported interface family. -/
def cfgWishbone : Configs :=
  { if_type := "wishbone", single_clock := false, hperiod_ulogic := 5, hperiod_bus := 10,
    ext_addrwidth := 32, sim_addrwidth := 24, output := "out.v", ext_burstlength := 256 }

/-- A config for the general family. -/
def cfgGeneral : Configs :=
  { if_type := "general", single_clock := false, hperiod_ulogic := 5, hperiod_bus := 10,
    ext_addrwidth := 32, sim_addrwidth := 24, output := "out.v", ext_burstlength := 256 }

/-- An AXI config with an explicit output path and a configured external
burst length of 128. -/
def cfgSample : Configs :=
  { if_type := "axi", single_clock := false, hperiod_ulogic := 5, hperiod_bus := 10,
    ext_addrwidth := 32, sim_addrwidth := 24, output := "/out/", ext_burstlength := 128 }

/-- Assembler inputs for module `foo` under `cfgSample`. -/
def pkgSample : PkgInputs :=
  { configs := cfgSample, userlogic_topmodule := "foo", synthesized_code := "synth",
    common_code := "common", masterlist := [], slavelist := [], top_parameters := [],
    top_ioports := [], memimg := none, memimgContent := "", usertest := none,
    usertestContent := "", ignore_protocol_error := false }

/-- An 8-bit input port. -/
def portW8 : PortRef :=
  { name := "dat", width := some { msb := WExpr.intConst 7, lsb := WExpr.intConst 0 },
    signed := false, dir := PDir.input }

/-- A scalar input port. -/
def portScalar : PortRef :=
  { name := "clk", width := none, signed := false, dir := PDir.input }

/-- A filesystem that already holds the target package directory. -/
def fsSample : FS := { dirs := ["ipgen_foo_v1_00_a/"], files := [] }

/-- A width node `[W-1:0]` whose msb mentions the parameter `W`. -/
def widthW : WidthNode :=
  { msb := WExpr.minus (WExpr.ident "W") (WExpr.intConst 1), lsb := WExpr.intConst 0 }

/-- An output port of declared width `[W-1:0]`. -/
def portVecW : PortRef :=
  { name := "dat", width := some widthW, signed := false, dir := PDir.output }

/-! ## Helper lemmas -/

/-- Appending an action never removes a directory. -/
theorem mem_dirs_applyAction (fs : FS) (a : FsAction) (d : String)
    (hd : d ∈ fs.dirs) : d ∈ (applyAction fs a).dirs := by
  cases a with
  | mkdirIfAbsent e =>
      simp only [applyAction]
      split
      · exact hd
      · exact List.mem_append_left _ hd
  | fwrite p c => simpa only [applyAction] using hd

/-- Running an action list never removes a directory. -/
theorem mem_dirs_applyActions (acts : List FsAction) (fs : FS) (d : String)
    (hd : d ∈ fs.dirs) : d ∈ (applyActions fs acts).dirs := by
  induction acts generalizing fs with
  | nil => exact hd
  | cons a rest ih => exact ih _ (mem_dirs_applyAction fs a d hd)

/-- `setFile` overwrites exactly the named file. -/
theorem getFile_setFile (l : List (String × String)) (q c p : String) :
    getFile (setFile l q c) p = if q = p then some c else getFile l p := by
  induction l with
  | nil =>
      by_cases h : q = p <;> simp [setFile, getFile, h]
  | cons hd tl ih =>
      obtain ⟨a, b⟩ := hd
      by_cases haq : a = q
      · subst haq
        by_cases hap : a = p <;> simp [setFile, getFile, hap]
      · by_cases hap : a = p
        · subst hap
          have : ¬ q = a := fun h => haq h.symm
          simp [setFile, getFile, haq, this]
        · simp [setFile, getFile, haq, hap, ih]

/-- A directory creation does not touch the files. -/
theorem files_applyAction_mkdir (fs : FS) (d : String) :
    (applyAction fs (.mkdirIfAbsent d)).files = fs.files := by
  simp only [applyAction]
  split <;> rfl

/-- After running an action list, a file's content is the last write to
it, or the starting content when the list never writes it. -/
theorem getFile_applyActions (acts : List FsAction) (fs : FS) (p : String) :
    getFile (applyActions fs acts).files p
      = match lastWrite acts p with
        | some c => some c
        | none => getFile fs.files p := by
  induction acts generalizing fs with
  | nil => rfl
  | cons a rest ih =>
      have hstep : applyActions fs (a :: rest) = applyActions (applyAction fs a) rest := rfl
      rw [hstep, ih]
      cases hl : lastWrite rest p with
      | some c => simp [lastWrite, hl]
      | none =>
          cases a with
          | mkdirIfAbsent d => simp [lastWrite, hl, files_applyAction_mkdir]
          | fwrite q c =>
              simp only [lastWrite, hl, applyAction, getFile_setFile]
              by_cases hqp : q = p <;> simp [hqp]

/-- Re-running the same action list leaves every file's content as it
was after the first run. -/
theorem rerun_getFile (acts : List FsAction) (fs : FS) (p : String) :
    getFile (applyActions (applyActions fs acts) acts).files p
      = getFile (applyActions fs acts).files p := by
  rw [getFile_applyActions acts (applyActions fs acts) p]
  cases hl : lastWrite acts p with
  | some c => rw [getFile_applyActions acts fs p, hl]
  | none => rfl

/-- String append on the character lists. -/
theorem strData_append (a b : String) : (a ++ b).data = a.data ++ b.data := by
  cases a; cases b; rfl

/-- A path of the form `d ++ x` lies under `d`. -/
theorem underAppend (d x : String) : ∃ rest, d ++ x = d ++ rest := ⟨x, rfl⟩

/-- A path of the form `d ++ x ++ y` lies under `d`. -/
theorem underAppend2 (d x y : String) : ∃ rest, d ++ x ++ y = d ++ rest :=
  ⟨x ++ y, String.append_assoc d x y⟩

/-- `d` itself lies under `d`. -/
theorem underSelf (d : String) : ∃ rest, d = d ++ rest :=
  ⟨"", (String.append_empty d).symm⟩

/-! ## Claim C1 -/

/-- C1: for every build configuration with the single-clock flag set and
differing user-logic/bus half periods, `build` raises the configuration
ValueError (lines 105-106) with an empty trace: the external structural
analyzer has not been invoked and no directory or file action has been
performed. -/
theorem single_clock_mismatch_fails_before_any_work
    (tmpl : TmplEngine) (tmplFile : String → String) (compGen : ComponentGenFn)
    (configs : Configs) (top : String) (analyzer : AnalyzerResult)
    (memimg : Option String) (memimgContent : String)
    (usertest : Option String) (usertestContent : String) (ipe : Bool)
    (hsc : configs.single_clock = true)
    (hne : configs.hperiod_ulogic ≠ configs.hperiod_bus) :
    build tmpl tmplFile compGen configs top analyzer memimg memimgContent
        usertest usertestContent ipe
      = ([], some "All clock periods should be same in single clock mode.") := by
  unfold build
  simp [hsc, hne]

/-- Witness for C1 at a concrete mismatched config. -/
theorem single_clock_mismatch_fails_before_any_work_witness :
    build tmplZero tmplFileZero compGenZero cfgMismatch "foo" emptyAnalyzer
        none "" none "" false
      = ([], some "All clock periods should be same in single clock mode.") :=
  single_clock_mismatch_fails_before_any_work _ _ _ _ _ _ _ _ _ _ _
    rfl (by decide)

/-! ## Claim C2 -/

/-- C2 counterexample: for the unsupported family `wishbone` the build
does raise the configuration ValueError, but the structural-analysis
step is already in the trace when it does — the claim that the abort
happens before any structural analysis is false. -/
theorem unsupported_family_error_after_analysis_counterexample :
    (build tmplZero tmplFileZero compGenZero cfgWishbone "foo" emptyAnalyzer
        none "" none "" false).2
      = some "Interface type 'wishbone' is not supported."
    ∧ BuildStep.analyze
        ∈ (build tmplZero tmplFileZero compGenZero cfgWishbone "foo" emptyAnalyzer
            none "" none "" false).1 := by
  exact ⟨rfl, by decide⟩

/-- C2 amended: a configuration whose interface family is none of
general, axi, avalon aborts with the configuration ValueError and no
directory or file action is performed — but only after the external
structural analysis has run. -/
theorem unsupported_family_aborts_after_analysis
    (tmpl : TmplEngine) (tmplFile : String → String) (compGen : ComponentGenFn)
    (configs : Configs) (top : String) (analyzer : AnalyzerResult)
    (memimg : Option String) (memimgContent : String)
    (usertest : Option String) (usertestContent : String) (ipe : Bool)
    (hclk : configs.single_clock = true → configs.hperiod_ulogic = configs.hperiod_bus)
    (hg : configs.if_type ≠ "general") (ha : configs.if_type ≠ "axi")
    (hv : configs.if_type ≠ "avalon") :
    build tmpl tmplFile compGen configs top analyzer memimg memimgContent
        usertest usertestContent ipe
      = ([BuildStep.analyze],
         some ("Interface type '" ++ configs.if_type ++ "' is not supported.")) := by
  unfold build
  have hcond : (configs.single_clock && (configs.hperiod_ulogic != configs.hperiod_bus))
      = false := by
    cases h : configs.single_clock
    · simp
    · simp [hclk h]
  rw [hcond]
  simp [hg, ha, hv]

/-- Witness for the amended C2 at the concrete `wishbone` config. -/
theorem unsupported_family_aborts_after_analysis_witness :
    build tmplZero tmplFileZero compGenZero cfgWishbone "foo" emptyAnalyzer
        none "" none "" false
      = ([BuildStep.analyze],
         some ("Interface type '" ++ "wishbone" ++ "' is not supported.")) :=
  unsupported_family_aborts_after_analysis _ _ _ _ _ _ _ _ _ _ _
    (by decide) (by decide) (by decide) (by decide)

/-! ## Claim C3 -/

/-- C3 counterexample: with externalBurstLength 128 in the
configuration, the bus-adapter parameterization rendered into the AXI
mpd artifact still carries burst length 256 — the assemblers use the
local default (lines 103, 227, 503), never the configured value. -/
theorem burstlength_ignores_config_counterexample :
    pkgSample.configs.ext_burstlength = 128
    ∧ (renderDict (axiMpdArgs pkgSample)).ext_burstlength = 256
    ∧ (256 : Nat) ≠ 128 :=
  ⟨rfl, rfl, by decide⟩

/-- C3 amended: the burst length emitted into every render context of
every family is the fixed default 256 (derived bit width 8), and the
whole build trace is invariant under the configured externalBurstLength
value. -/
theorem burstlength_is_fixed_default (tmpl : TmplEngine)
    (tmplFile : String → String) (compGen : ComponentGenFn) (i : PkgInputs)
    (configs : Configs) (top : String) (analyzer : AnalyzerResult)
    (memimg : Option String) (memimgContent : String)
    (usertest : Option String) (usertestContent : String) (ipe : Bool)
    (n : Nat) :
    (renderDict (axiMpdArgs i)).ext_burstlength = 256
    ∧ (renderDict (axiPaoArgs i)).ext_burstlength = 256
    ∧ (renderDict (axiXguiArgs i)).ext_burstlength = 256
    ∧ (renderDict (axiTestArgs i)).ext_burstlength = 256
    ∧ (renderDict (axiMakefileArgs i)).ext_burstlength = 256
    ∧ (renderDict (avalonTclArgs i)).ext_burstlength = 256
    ∧ (renderDict (avalonTestArgs i)).ext_burstlength = 256
    ∧ (renderDict (avalonMakefileArgs i)).ext_burstlength = 256
    ∧ (renderDict (nodeArgs configs top analyzer)).ext_burstlength = 256
    ∧ (renderDict (axiMpdArgs i)).ext_burstlen_width = 8
    ∧ build tmpl tmplFile compGen { configs with ext_burstlength := n } top
        analyzer memimg memimgContent usertest usertestContent ipe
      = build tmpl tmplFile compGen configs top analyzer memimg memimgContent
          usertest usertestContent ipe := by
  refine ⟨rfl, rfl, rfl, rfl, rfl, rfl, rfl, rfl, rfl, ?_, rfl⟩
  show log2 256 = 8
  have h : (256 : ℕ) = 2 ^ 8 := by norm_num
  rw [log2, h, Nat.clog_pow _ _ (by norm_num)]

/-! ## Claim C4 -/

/-- C4 counterexample: the AXI assembler's first action creates the
directory `ipgen_foo_v1_00_a/` in the working directory, which does not
lie under the configured output path `/out/`; `configs['output']` is
never consulted by the AXI and Avalon assemblers. -/
theorem outputPath_not_used_counterexample :
    (build_package_axi tmplZero tmplFileZero compGenZero pkgSample).head?
      = some (FsAction.mkdirIfAbsent "ipgen_foo_v1_00_a/")
    ∧ pkgSample.configs.output = "/out/"
    ∧ ¬ ∃ rest, "ipgen_foo_v1_00_a/" = "/out/" ++ rest := by
  refine ⟨rfl, rfl, ?_⟩
  rintro ⟨rest, h⟩
  have h2 : "ipgen_foo_v1_00_a/".data = "/out/".data ++ rest.data := by
    rw [h, strData_append]
  simp at h2

/-- C4 amended: every directory created and every file written by the
AXI and Avalon assemblers lies under the package directory
`ipgen_<module>_v1_00_a/` (relative to the working directory); the
configured output path plays no part in these two families. -/
theorem package_paths_under_ipcore_dir (tmpl : TmplEngine)
    (tmplFile : String → String) (compGen : ComponentGenFn) (i : PkgInputs) :
    (∀ a ∈ build_package_axi tmpl tmplFile compGen i,
        ∃ rest, a.path = axiDirname i.userlogic_topmodule ++ rest)
    ∧ (∀ a ∈ build_package_avalon tmpl tmplFile i,
        ∃ rest, a.path = axiDirname i.userlogic_topmodule ++ rest) := by
  constructor <;>
  · cases hm : i.memimg <;>
    · simp only [build_package_axi, build_package_avalon, hm, List.append_nil,
        List.forall_mem_append, List.forall_mem_cons, List.forall_mem_singleton,
        FsAction.path]
      repeat' apply And.intro
      all_goals
        first
        | exact underSelf _
        | (simp only [String.append_assoc]; exact ⟨_, rfl⟩)
        | exact ⟨_, rfl⟩
        | intro a ha
          exact absurd ha (List.not_mem_nil a)

/-! ## Claim C5 -/

/-- C5 counterexample: the declaration `parameter WIDTH = 8;` contains
neither a quote nor the integer keyword, so by the claim every family
should classify it as a raw bit-vector type; the AXI profile classifies
it `integer` (its two-way classification of line 249 has no bit-vector
case), while the Avalon profile does yield `STD_LOGIC_VECTOR`. -/
theorem axi_param_datatype_counterexample :
    hasSubstr "parameter WIDTH = 8;" "\"" = false
    ∧ hasSubstr "parameter WIDTH = 8;" "integer" = false
    ∧ axiParamDatatype "parameter WIDTH = 8;" = "integer"
    ∧ avalonParamDatatype "parameter WIDTH = 8;" = "STD_LOGIC_VECTOR" :=
  ⟨by decide, by decide, by decide, by decide⟩

/-- C5 amended: a quoted declaration is classified STRING in both
families; without a quote the AXI profile always classifies `integer`
(there is no bit-vector case), while the Avalon profile yields INTEGER
exactly when the declaration contains the integer keyword and
STD_LOGIC_VECTOR otherwise; direction OUTPUT maps to `O` in the AXI
mpd table and to `Output` in the Avalon tcl table. -/
theorem param_and_port_classification (r : String) :
    (hasSubstr r "\"" = true →
      axiParamDatatype r = "string" ∧ avalonParamDatatype r = "STRING")
    ∧ (hasSubstr r "\"" = false → axiParamDatatype r = "integer")
    ∧ (hasSubstr r "\"" = false → hasSubstr r "integer" = true →
        avalonParamDatatype r = "INTEGER")
    ∧ (hasSubstr r "\"" = false → hasSubstr r "integer" = false →
        avalonParamDatatype r = "STD_LOGIC_VECTOR")
    ∧ axiMpdDir PDir.output = "O"
    ∧ avalonTclDir PDir.output = "Output" := by
  refine ⟨?_, ?_, ?_, ?_, rfl, rfl⟩
  · intro h
    exact ⟨by simp [axiParamDatatype, h], by simp [avalonParamDatatype, h]⟩
  · intro h
    simp [axiParamDatatype, h]
  · intro h hi
    simp [avalonParamDatatype, h, hi]
  · intro h hi
    simp [avalonParamDatatype, h, hi]

/-! ## Claim C6 -/

/-- C6: for the GENERIC family a passing build performs exactly one file
write, at the configured output path, and its content is the rendered
wrapper (node code followed by the re-rendered user logic) concatenated
with the shared protocol-interface source, which is empty for this
family. -/
theorem general_build_single_concatenated_file
    (tmpl : TmplEngine) (tmplFile : String → String) (compGen : ComponentGenFn)
    (configs : Configs) (top : String) (analyzer : AnalyzerResult)
    (memimg : Option String) (memimgContent : String)
    (usertest : Option String) (usertestContent : String) (ipe : Bool)
    (hclk : configs.single_clock = true → configs.hperiod_ulogic = configs.hperiod_bus)
    (hg : configs.if_type = "general") :
    build tmpl tmplFile compGen configs top analyzer memimg memimgContent
        usertest usertestContent ipe
      = ([BuildStep.analyze,
          .fsAct (.fwrite configs.output
            ((render tmpl (nodeArgs configs top analyzer) ++ analyzer.userlogic_code)
              ++ String.join (commonCodeList tmplFile configs.if_type)))], none)
    ∧ String.join (commonCodeList tmplFile configs.if_type) = "" := by
  have hcond : (configs.single_clock && (configs.hperiod_ulogic != configs.hperiod_bus))
      = false := by
    cases h : configs.single_clock
    · simp
    · simp [hclk h]
  constructor
  · unfold build
    rw [hcond]
    simp [hg, build_package_general]
  · rw [hg]
    rfl

/-- Witness for C6 at a concrete general-family config. -/
theorem general_build_single_concatenated_file_witness :
    (build tmplZero tmplFileZero compGenZero cfgGeneral "foo" emptyAnalyzer
        none "" none "" false
      = ([BuildStep.analyze,
          .fsAct (.fwrite "out.v"
            ((render tmplZero (nodeArgs cfgGeneral "foo" emptyAnalyzer) ++ "usercode")
              ++ String.join (commonCodeList tmplFileZero "general")))], none))
    ∧ String.join (commonCodeList tmplFileZero "general") = "" :=
  general_build_single_concatenated_file tmplZero tmplFileZero compGenZero
    cfgGeneral "foo" emptyAnalyzer none "" none "" false (by decide) rfl

/-! ## Claim C7 -/

/-- C7 counterexample: an 8-bit avalon port's tcl row carries the
resolved bit count itself, rendered as `8` (line 536), not the
most-significant-bit index 7 that the claim requires, and a scalar
avalon port carries `1` rather than None. -/
theorem avalon_tcl_vec_counterexample :
    (avalonPortsPass [("dat", portW8, 8)]).tcl_ports = [("dat", "Input", "8")]
    ∧ "8" ≠ "7"
    ∧ (avalonPortsPass [("clk", portScalar, 1)]).tcl_ports = [("clk", "Input", "1")] :=
  ⟨rfl, by decide, rfl⟩

/-- C7 amended: only the AXI profile's IP-XACT (`ext_ports`) rows use
None for a scalar port and the resolved bit count minus one as the
msb index of a vector port, with parameter identifiers in the msb
expression replaced by the spirit accessor; HDL emission renders the
width expression untouched; the Avalon tcl rows carry the rendered
resolved bit count itself. -/
theorem port_width_classification (pv : PortRef) (pwidth : Int)
    (w : WidthNode) (ports : List (String × PortRef × Int)) (ident : String) :
    (pv.width = none → axiExtPortEntry pv pwidth = (pv.name, axiExtDir pv.dir, none, none))
    ∧ (pv.width = some w →
        axiExtPortEntry pv pwidth
          = (pv.name, axiExtDir pv.dir, some (pwidth - 1),
             some ((w.msb.replaceIdentifiers (spiritDict w.msb.identifiers)).visit)))
    ∧ (axiPortsPass ports).def_top_ioports
        = ports.map (fun x => wireVisit x.2.1.name x.2.1.width x.2.1.signed)
    ∧ (avalonPortsPass ports).tcl_ports
        = ports.map (fun x => (x.2.1.name, avalonTclDir x.2.1.dir, toString x.2.2))
    ∧ (WExpr.ident ident).replaceIdentifiers (spiritDict [ident])
        = WExpr.ident (spiritDecode ident) := by
  refine ⟨?_, ?_, ?_, ?_, ?_⟩
  · intro h
    simp [axiExtPortEntry, h]
  · intro h
    simp [axiExtPortEntry, h]
  · induction ports with
    | nil => rfl
    | cons x rest ih =>
        obtain ⟨pk, pv', pw⟩ := x
        simp [axiPortsPass, ih]
  · induction ports with
    | nil => rfl
    | cons x rest ih =>
        obtain ⟨pk, pv', pw⟩ := x
        simp [avalonPortsPass, ih]
  · simp [WExpr.replaceIdentifiers, spiritDict, lookupAssoc]

/-- Witness for the amended C7 at concrete ports: a scalar port, an
8-bit port whose msb mentions the parameter `W`, and the identifier
substitution on `W` itself. -/
theorem port_width_classification_witness :
    (axiExtPortEntry portScalar 1 = ("clk", "in", none, none))
    ∧ (axiExtPortEntry portVecW 8
      = ("dat", "out", some 7,
         some ("(" ++ spiritDecode "W" ++ "-" ++ "1" ++ ")"))) := by
  constructor
  · exact (port_width_classification portScalar 1 widthW [] "W").1 rfl
  · have h := (port_width_classification portVecW 8 widthW [] "W").2.1 rfl
    rw [h]
    rfl

/-! ## Claim C8 -/

/-- C8: at the exact power of two `2^29` the burst-length bit width the
program computes is 30, not the 29 the claim requires: the
double-precision `math.log(2**29, 2)` returns one ulp above 29
(`mathLogTwoPow29`) and the ceiling of line 30 rounds it up to 30.  The
exact ceiling logarithm `log2` — the claim's and the spec's intent —
does give 29 there. -/
theorem log2_float_rounding_bug :
    intCeil mathLogTwoPow29 = 30
    ∧ (30 : ℤ) ≠ 29
    ∧ log2 (2 ^ 29) = 29 := by
  refine ⟨?_, by decide, Nat.clog_pow 2 29 (by norm_num)⟩
  rw [intCeil, mathLogTwoPow29, Int.ceil_eq_iff]
  constructor <;> norm_num

/-! ## Claim C9 -/

/-- C9: re-running the AXI or Avalon assembly with identical inputs over
a filesystem that already holds the tree leaves every existing directory
in place (directory creation is skipped when the directory exists, and
nothing is ever cleared) and ends with every file byte-for-byte as the
first run left it — the same writes overwrite the same contents. -/
theorem rebuild_idempotent (tmpl : TmplEngine) (tmplFile : String → String)
    (compGen : ComponentGenFn) (i : PkgInputs) (fs : FS) (d p : String)
    (hd : d ∈ fs.dirs) :
    (d ∈ (applyActions fs (build_package_axi tmpl tmplFile compGen i)).dirs
      ∧ getFile (applyActions
            (applyActions fs (build_package_axi tmpl tmplFile compGen i))
            (build_package_axi tmpl tmplFile compGen i)).files p
          = getFile (applyActions fs (build_package_axi tmpl tmplFile compGen i)).files p)
    ∧ (d ∈ (applyActions fs (build_package_avalon tmpl tmplFile i)).dirs
      ∧ getFile (applyActions
            (applyActions fs (build_package_avalon tmpl tmplFile i))
            (build_package_avalon tmpl tmplFile i)).files p
          = getFile (applyActions fs (build_package_avalon tmpl tmplFile i)).files p) :=
  ⟨⟨mem_dirs_applyActions _ _ _ hd, rerun_getFile _ _ _⟩,
   ⟨mem_dirs_applyActions _ _ _ hd, rerun_getFile _ _ _⟩⟩

/-- Witness for C9: the package directory already exists and survives
the run; the Makefile's content is the same after a second run. -/
theorem rebuild_idempotent_witness :
    ("ipgen_foo_v1_00_a/"
        ∈ (applyActions fsSample (build_package_axi tmplZero tmplFileZero compGenZero pkgSample)).dirs
      ∧ getFile (applyActions
            (applyActions fsSample (build_package_axi tmplZero tmplFileZero compGenZero pkgSample))
            (build_package_axi tmplZero tmplFileZero compGenZero pkgSample)).files
            "ipgen_foo_v1_00_a/test/Makefile"
          = getFile (applyActions fsSample
              (build_package_axi tmplZero tmplFileZero compGenZero pkgSample)).files
              "ipgen_foo_v1_00_a/test/Makefile")
    ∧ ("ipgen_foo_v1_00_a/"
        ∈ (applyActions fsSample (build_package_avalon tmplZero tmplFileZero pkgSample)).dirs
      ∧ getFile (applyActions
            (applyActions fsSample (build_package_avalon tmplZero tmplFileZero pkgSample))
            (build_package_avalon tmplZero tmplFileZero pkgSample)).files
            "ipgen_foo_v1_00_a/test/Makefile"
          = getFile (applyActions fsSample
              (build_package_avalon tmplZero tmplFileZero pkgSample)).files
              "ipgen_foo_v1_00_a/test/Makefile") :=
  rebuild_idempotent tmplZero tmplFileZero compGenZero pkgSample fsSample
    "ipgen_foo_v1_00_a/" "ipgen_foo_v1_00_a/test/Makefile" (by decide)

/-! ## Claim C10 -/

/-- C10: for the Avalon family each user I/O port is declared in the
wrapper's port list under the name `coe_<name>` while the cross-reference
name list keeps the original mapping keys; for the AXI and general
families the declared names are the ports' own names. -/
theorem avalon_ports_coe_renamed (ports : List (String × PortRef × Int)) :
    (wrapperPortDecls "avalon" ports).map PortRef.name
        = ports.map (fun x => "coe_" ++ x.2.1.name)
    ∧ (buildPortsPass "avalon" ports).name_top_ioports = ports.map (fun x => x.1)
    ∧ (buildPortsPass "avalon" ports).def_top_ioports
        = (wrapperPortDecls "avalon" ports).map ioportVisit
    ∧ (wrapperPortDecls "axi" ports).map PortRef.name
        = ports.map (fun x => x.2.1.name)
    ∧ (wrapperPortDecls "general" ports).map PortRef.name
        = ports.map (fun x => x.2.1.name) := by
  refine ⟨?_, rfl, rfl, ?_, ?_⟩ <;>
  · rw [wrapperPortDecls, List.map_map]
    refine List.map_congr_left ?_
    intro x _
    simp [coeRename]

end Ipgen
